import Mathlib

/-!
Verification of the dockstring docking pipeline (`src/dockstring/dockstring.py`).

The file shallowly embeds the `Target` class and its `dock` method.  The
external chemistry library (RDKit), the file system, and the AutoDock Vina
binary are modelled as an explicit environment of pure functions (`ChemEnv`,
`Sys`); file contents are threaded by value instead of living on disk.  The
helper functions from `dockstring/utils.py` and the error classes from
`dockstring/errors.py` are not part of the source tree under verification,
so they are modelled from the spec (each such definition carries a
`Modelled from the spec:` doc comment).  Everything that *is* in
`dockstring/dockstring.py` — path construction, eager artifact validation,
the lazy working directory, the exact stage sequence of `dock`, the Vina
command line, the error raised on a non-zero engine exit, the final
assertion and return value — is translated directly from that file.

`dock` additionally records a trace of the pipeline steps it performs
(which external operation was invoked, on which molecule, with which seed,
and which subprocess command lines were spawned) so that ordering and
"never invoked" properties can be stated.
-/

/-- Error kinds. `DockstringError` and `VinaError` are the two classes
imported and raised by `dockstring.py` itself (each carries its message
string).  The remaining constructors are Modelled from the spec: the spec's
error taxonomy (§7) for `dockstring/errors.py`, which is not under `src/`;
they are produced by the spec-modelled wrappers below.  `AssertionError`
models the failure of the `assert` statement in `Target.dock`, and
`IndexError` models Python's error on `scores[0]` for an empty list. -/
inductive DockError where
  | DockstringError (msg : String)
  | VinaError (msg : String)
  | UnsupportedTargetError
  | InvalidSmilesError
  | SanitizationError
  | UnsupportedMoleculeError
  | EmbeddingError
  | EngineOutputError
  | BondOrderAssignmentError
  | DockedLigandMismatchError
  | AssertionError
  | IndexError
deriving DecidableEq, Repr

/-- An RDKit molecule, opaque to the pipeline.  The pipeline only ever
queries its conformer count (`GetNumConformers`); `id` distinguishes the
values produced by the abstract chemistry operations. -/
structure Mol where
  id : Nat
  numConformers : Nat
deriving DecidableEq, Repr

/-- A binding-affinity score as parsed from the output file.  The pipeline
never computes with scores, it only selects and returns them, so an
abstract integer stands in for the float. -/
abbrev Score := Int

/-- Result of running the engine subprocess: exit code, combined
stdout/stderr (the Python code merges them via `stderr=subprocess.STDOUT`),
and the content the engine wrote to its `--out` file. -/
structure RunResult where
  returncode : Int
  output : String
  outfile : String
deriving DecidableEq, Repr

/-- One observable step of a `dock` call, in execution order. -/
inductive Step where
  | canonicalize (smiles : String)
  | parse (canonical_smiles : String)
  | sanitize (m : Mol)
  | check_mol (m : Mol)
  | check_charges (m : Mol)
  | protonate (m : Mol)
  | embed (m : Mol) (seed : Int) (result : Mol)
  | refine (m : Mol)
  | assign_stereo (m : Mol)
  | write_mol_file (m : Mol)
  | convert_to_pdbqt
  | subprocess (cmd : List String)
  | log (output : String)
  | check_vina_output (content : String)
  | convert_pdbqt_to_pdb
  | read_pdb
  | assign_bond_orders (subject ref : Mol)
  | verify (ref ligand : Mol)
  | parse_scores (content : String)
deriving DecidableEq, Repr

/-- The external chemistry library and docking engine, as pure functions.
Every field is a black-box primitive the pipeline calls; the spec (§6)
treats them as external collaborators.  Determinism of each primitive
(same input, same output) is what the spec demands of a "deterministic
engine configuration" and of RDKit's seeded embedding, and is expressed
here by their being functions. -/
structure ChemEnv where
  /-- RDKit canonicalization; `none` when the SMILES is unparseable. -/
  rdkit_canonicalize : String → Option String
  /-- Function `smiles_to_mol`: build a molecule graph from canonical SMILES. -/
  smiles_to_mol : String → Except DockError Mol
  /-- RDKit sanitization; `none` on chemically invalid input. -/
  rdkit_sanitize : Mol → Option Mol
  /-- structural predicate behind `check_mol` (size/element/fragments). -/
  mol_ok : Mol → Bool
  /-- net-formal-charge predicate behind `check_charges`. -/
  charges_ok : Mol → Bool
  /-- Function `protonate_mol`: explicit hydrogens at reference pH. -/
  protonate_mol : Mol → Mol
  /-- Function `embed_mol`: one 3D conformer from the given seed. -/
  embed_mol : Mol → Int → Mol
  /-- force-field refinement; `none` when parameters are missing. -/
  ff_refine : Mol → Option Mol
  /-- Function `assign_stereochemistry` (in-place in Python; a function here). -/
  assign_stereochemistry : Mol → Mol
  /-- Function `write_mol_to_mol_file`: the mol-file content for a molecule. -/
  write_mol_to_mol_file : Mol → String
  /-- Function `convert_mol_file_to_pdbqt`: mol-file content to pdbqt content. -/
  convert_mol_file_to_pdbqt : String → Except DockError String
  /-- Function `get_vina_path()`: path of the engine binary. -/
  vina_path : String
  /-- the engine subprocess: receptor path, config path, ligand pdbqt
  content, seed, optional cpu count. -/
  run_vina : String → String → String → Int → Option Nat → RunResult
  /-- well-formedness predicate behind `check_vina_output`. -/
  vina_output_ok : String → Bool
  /-- Function `convert_pdbqt_to_pdb` (second argument: `disable_bonding`). -/
  convert_pdbqt_to_pdb : String → Bool → Except DockError String
  /-- Function `read_mol_from_pdb`: coordinate-only molecule from pdb content. -/
  read_mol_from_pdb : String → Except DockError Mol
  /-- RDKit `RemoveHs`. -/
  remove_hs : Mol → Mol
  /-- RDKit bond-order template assignment; `none` when no consistent
  assignment exists. -/
  rdkit_assign_bond_orders : Mol → Mol → Option Mol
  /-- predicate behind `verify_docked_ligand`: same molecule up to
  conformation and protonation. -/
  docked_ligand_matches : Mol → Mol → Bool
  /-- Function `parse_scores_from_output`: one score per pose, engine order. -/
  parse_scores_from_output : String → List Score

/-- The parts of the operating system the `Target` class touches: the
targets directory, file existence, `tempfile.TemporaryDirectory()` (the
name of the directory it would create), and `Path.resolve`. -/
structure Sys where
  targets_dir : String
  file_exists : String → Bool
  mkdtemp : String
  resolve : String → String

/-- State of a `Target`: `name`, the user-supplied `_custom_working_dir`, and
the lazily initialized `_tmp_dir_handle`. -/
structure Target where
  name : String
  custom_working_dir : Option String
  tmp_dir_handle : Option String
deriving DecidableEq, Repr

/-- Property `Target.pdb_path`: `get_targets_dir() / (name + '_target.pdb')`. -/
def pdb_path (sys : Sys) (name : String) : String :=
  sys.targets_dir ++ "/" ++ name ++ "_target.pdb"

/-- Property `Target.pdbqt_path`: `get_targets_dir() / (name + '_target.pdbqt')`. -/
def pdbqt_path (sys : Sys) (name : String) : String :=
  sys.targets_dir ++ "/" ++ name ++ "_target.pdbqt"

/-- Property `Target.conf_path`: `get_targets_dir() / (name + '_conf.txt')`. -/
def conf_path (sys : Sys) (name : String) : String :=
  sys.targets_dir ++ "/" ++ name ++ "_conf.txt"

/-- Constructor `Target.__init__`: stores `name` and the working directory, leaves the
temporary-directory handle unset, and eagerly checks that all three
artifact files exist, raising
`DockstringError(f"'{name}' is not a supported target")` otherwise. -/
def Target.init (sys : Sys) (name : String) (working_dir : Option String) :
    Except DockError Target :=
  if sys.file_exists (pdb_path sys name) &&
     sys.file_exists (pdbqt_path sys name) &&
     sys.file_exists (conf_path sys name) then
    .ok { name := name, custom_working_dir := working_dir, tmp_dir_handle := none }
  else
    .error (.DockstringError ("'" ++ name ++ "' is not a supported target"))

/-- Python truthiness of the stored `_custom_working_dir` (a `str`):
`None` and the empty string are falsy. -/
def truthyPath : Option String → Bool
  | none => false
  | some s => s != ""

/-- The `Target.working_dir` property, with its lazy mutation of
`_tmp_dir_handle` made explicit: returns the resolved directory and the
updated `Target` state. -/
def Target.working_dir (sys : Sys) (t : Target) : String × Target :=
  if truthyPath t.custom_working_dir then
    (sys.resolve (t.custom_working_dir.getD ""), t)
  else
    match t.tmp_dir_handle with
    | some d => (sys.resolve d, t)
    | none => (sys.resolve sys.mkdtemp, { t with tmp_dir_handle := some sys.mkdtemp })

/-- Modelled from the spec: `canonicalize_smiles` from
`dockstring/utils.py` (not under `src/`): "normalize the SMILES string to
a canonical form. Fails with `InvalidSmilesError` if unparseable." -/
def canonicalize_smiles (env : ChemEnv) (smiles : String) : Except DockError String :=
  match env.rdkit_canonicalize smiles with
  | none => .error .InvalidSmilesError
  | some c => .ok c

/-- Modelled from the spec: `sanitize_mol` from `dockstring/utils.py`
(not under `src/`): "normalize valence/aromaticity/ring perception. Fails
with `SanitizationError` on chemically invalid input." -/
def sanitize_mol (env : ChemEnv) (m : Mol) : Except DockError Mol :=
  match env.rdkit_sanitize m with
  | none => .error .SanitizationError
  | some m' => .ok m'

/-- Modelled from the spec: `check_mol` from `dockstring/utils.py` (not
under `src/`): "reject molecules outside supported size/element/charge
bounds … — fails with `UnsupportedMoleculeError`" (size/element/fragment
part of the structural check). -/
def check_mol (env : ChemEnv) (m : Mol) : Except DockError Unit :=
  if env.mol_ok m then .ok () else .error .UnsupportedMoleculeError

/-- Modelled from the spec: `check_charges` from `dockstring/utils.py`
(not under `src/`): the net-formal-charge bound of the structural check,
failing with `UnsupportedMoleculeError`. -/
def check_charges (env : ChemEnv) (m : Mol) : Except DockError Unit :=
  if env.charges_ok m then .ok () else .error .UnsupportedMoleculeError

/-- Modelled from the spec: `refine_mol_with_ff` from
`dockstring/utils.py` (not under `src/`): "minimize conformer energy with
a force field; fails with `EmbeddingError` if no convertible force-field
parameters exist for some atom." -/
def refine_mol_with_ff (env : ChemEnv) (m : Mol) : Except DockError Mol :=
  match env.ff_refine m with
  | none => .error .EmbeddingError
  | some m' => .ok m'

/-- Modelled from the spec: `check_vina_output` from
`dockstring/utils.py` (not under `src/`): "validates the output file is
non-empty and minimally well-formed (`EngineOutputError` otherwise)". -/
def check_vina_output (env : ChemEnv) (content : String) : Except DockError Unit :=
  if content == "" then .error .EngineOutputError
  else if env.vina_output_ok content then .ok ()
  else .error .EngineOutputError

/-- Modelled from the spec: `assign_bond_orders` from
`dockstring/utils.py` (not under `src/`): template bond-order assignment,
"fails with `BondOrderAssignmentError` if no consistent assignment
exists." -/
def assign_bond_orders (env : ChemEnv) (subject ref : Mol) : Except DockError Mol :=
  match env.rdkit_assign_bond_orders subject ref with
  | none => .error .BondOrderAssignmentError
  | some m => .ok m

/-- Modelled from the spec: `verify_docked_ligand` from
`dockstring/utils.py` (not under `src/`): "compares the reconstructed
ligand against the reference structure ignoring conformation and
protonation … Fails with `DockedLigandMismatchError` if not." -/
def verify_docked_ligand (env : ChemEnv) (ref ligand : Mol) : Except DockError Unit :=
  if env.docked_ligand_matches ref ligand then .ok ()
  else .error .DockedLigandMismatchError

/-- Method `Target._dock_pdbqt`: builds the Vina command line exactly as in the
source, runs the subprocess (capturing combined stdout/stderr), logs the
output when `verbose`, and raises `VinaError('Docking with Vina failed')`
on a non-zero exit code.  The Python method leaves the engine's output
file on disk; here its content is returned on success. -/
def Target._dock_pdbqt (env : ChemEnv) (sys : Sys) (t : Target)
    (ligand_pdbqt : String) (ligand_pdbqt_content : String)
    (vina_logfile vina_outfile : String) (seed : Int) (num_cpus : Option Nat)
    (verbose : Bool) : List Step × Except DockError String :=
  let cmd_list : List String :=
    [env.vina_path,
     "--receptor", pdbqt_path sys t.name,
     "--config", conf_path sys t.name,
     "--ligand", ligand_pdbqt,
     "--log", vina_logfile,
     "--out", vina_outfile,
     "--seed", toString seed] ++
    (match num_cpus with
     | some n => ["--cpu", toString n]
     | none => [])
  let cmd_return := env.run_vina (pdbqt_path sys t.name) (conf_path sys t.name)
      ligand_pdbqt_content seed num_cpus
  ([Step.subprocess cmd_list] ++ (if verbose then [Step.log cmd_return.output] else []),
   if cmd_return.returncode != 0 then .error (.VinaError "Docking with Vina failed")
   else .ok cmd_return.outfile)

/-- The body of `Target.dock` after the five auxiliary file paths have
been computed from the `working_dir` property (`Target.dock` below
performs those five property accesses and passes the resulting paths and
target state here).  Follows `dockstring.py` lines 122–165 statement by
statement. -/
def dock_files_body (env : ChemEnv) (sys : Sys)
    (ligand_mol_file ligand_pdbqt vina_logfile vina_outfile docked_ligand_pdb : String)
    (t : Target) (smiles : String) (num_cpus : Option Nat) (seed : Int)
    (verbose : Bool) :
    List Step × Target × Except DockError (Score × Mol × List Score) :=
  let tr0 : List Step := [Step.canonicalize smiles]
  match canonicalize_smiles env smiles with
  | .error e => (tr0, t, .error e)
  | .ok canonical_smiles =>
  let tr1 := tr0 ++ [Step.parse canonical_smiles]
  match env.smiles_to_mol canonical_smiles with
  | .error e => (tr1, t, .error e)
  | .ok mol0 =>
  let tr2 := tr1 ++ [Step.sanitize mol0]
  match sanitize_mol env mol0 with
  | .error e => (tr2, t, .error e)
  | .ok mol =>
  let tr3 := tr2 ++ [Step.check_mol mol]
  match check_mol env mol with
  | .error e => (tr3, t, .error e)
  | .ok _ =>
  let tr4 := tr3 ++ [Step.check_charges mol]
  match check_charges env mol with
  | .error e => (tr4, t, .error e)
  | .ok _ =>
  let protonated_mol := env.protonate_mol mol
  let tr5 := tr4 ++ [Step.protonate mol, Step.check_mol protonated_mol]
  match check_mol env protonated_mol with
  | .error e => (tr5, t, .error e)
  | .ok _ =>
  let embedded_mol := env.embed_mol protonated_mol seed
  let tr6 := tr5 ++ [Step.embed protonated_mol seed embedded_mol, Step.refine embedded_mol]
  match refine_mol_with_ff env embedded_mol with
  | .error e => (tr6, t, .error e)
  | .ok refined0 =>
  let refined_mol := env.assign_stereochemistry refined0
  let tr7 := tr6 ++ [Step.assign_stereo refined0]
  let mol_file_content := env.write_mol_to_mol_file refined_mol
  let tr8 := tr7 ++ [Step.write_mol_file refined_mol, Step.convert_to_pdbqt]
  match env.convert_mol_file_to_pdbqt mol_file_content with
  | .error e => (tr8, t, .error e)
  | .ok pdbqt_content =>
  let dp := Target._dock_pdbqt env sys t ligand_pdbqt pdbqt_content vina_logfile
      vina_outfile seed num_cpus verbose
  let tr9 := tr8 ++ dp.1
  match dp.2 with
  | .error e => (tr9, t, .error e)
  | .ok vina_out_content =>
  let tr10 := tr9 ++ [Step.check_vina_output vina_out_content]
  match check_vina_output env vina_out_content with
  | .error e => (tr10, t, .error e)
  | .ok _ =>
  let tr11 := tr10 ++ [Step.convert_pdbqt_to_pdb]
  match env.convert_pdbqt_to_pdb vina_out_content true with
  | .error e => (tr11, t, .error e)
  | .ok pdb_content =>
  let tr12 := tr11 ++ [Step.read_pdb]
  match env.read_mol_from_pdb pdb_content with
  | .error e => (tr12, t, .error e)
  | .ok raw_ligand =>
  let refined_mol_no_hs := env.remove_hs refined_mol
  let tr13 := tr12 ++ [Step.assign_bond_orders raw_ligand refined_mol_no_hs]
  match assign_bond_orders env raw_ligand refined_mol_no_hs with
  | .error e => (tr13, t, .error e)
  | .ok ligand0 =>
  let ligand := env.assign_stereochemistry ligand0
  let tr14 := tr13 ++ [Step.assign_stereo ligand0, Step.verify refined_mol_no_hs ligand]
  match verify_docked_ligand env refined_mol_no_hs ligand with
  | .error e => (tr14, t, .error e)
  | .ok _ =>
  let scores := env.parse_scores_from_output pdb_content
  let tr15 := tr14 ++ [Step.parse_scores pdb_content]
  if scores.length = ligand.numConformers then
    match scores with
    | [] => (tr15, t, .error .IndexError)
    | s0 :: rest => (tr15, t, .ok (s0, ligand, s0 :: rest))
  else (tr15, t, .error .AssertionError)

/-- Default of the `seed` parameter of `Target.dock`. -/
def default_seed : Int := 974528263

/-- Method `Target.dock`: computes the five auxiliary file names (five accesses
of the `working_dir` property, the first of which may create the
temporary directory) and runs the pipeline body.  Returns the step trace,
the updated target state and either the docking result
`(scores[0], ligand, scores)` or the raised error. -/
def Target.dock (env : ChemEnv) (sys : Sys) (t : Target) (smiles : String)
    (num_cpus : Option Nat := none) (seed : Int := default_seed)
    (verbose : Bool := false) :
    List Step × Target × Except DockError (Score × Mol × List Score) :=
  let p1 := Target.working_dir sys t
  let p2 := Target.working_dir sys p1.2
  let p3 := Target.working_dir sys p2.2
  let p4 := Target.working_dir sys p3.2
  let p5 := Target.working_dir sys p4.2
  dock_files_body env sys
    (p1.1 ++ "/ligand.mol") (p2.1 ++ "/ligand.pdbqt") (p3.1 ++ "/vina.log")
    (p4.1 ++ "/vina.out") (p5.1 ++ "/docked_ligand.pdb")
    p5.2 smiles num_cpus seed verbose

/-- Constructor tag of a `Step`, with the data erased. -/
inductive StepLabel where
  | canonicalizeL | parseL | sanitizeL | checkMolL | checkChargesL | protonateL
  | embedL | refineL | assignStereoL | writeMolFileL | convertToPdbqtL
  | subprocessL | logL | checkVinaOutputL | convertPdbqtToPdbL | readPdbL
  | assignBondOrdersL | verifyL | parseScoresL
deriving DecidableEq, Repr

/-- Erase a step's data, keeping its label. -/
def Step.label : Step → StepLabel
  | .canonicalize _ => .canonicalizeL
  | .parse _ => .parseL
  | .sanitize _ => .sanitizeL
  | .check_mol _ => .checkMolL
  | .check_charges _ => .checkChargesL
  | .protonate _ => .protonateL
  | .embed _ _ _ => .embedL
  | .refine _ => .refineL
  | .assign_stereo _ => .assignStereoL
  | .write_mol_file _ => .writeMolFileL
  | .convert_to_pdbqt => .convertToPdbqtL
  | .subprocess _ => .subprocessL
  | .log _ => .logL
  | .check_vina_output _ => .checkVinaOutputL
  | .convert_pdbqt_to_pdb => .convertPdbqtToPdbL
  | .read_pdb => .readPdbL
  | .assign_bond_orders _ _ => .assignBondOrdersL
  | .verify _ _ => .verifyL
  | .parse_scores _ => .parseScoresL

/-- The label sequence of a `dock` call in which every stage succeeded
(the `log` step appears exactly when `verbose`). -/
def fullLabels (verbose : Bool) : List StepLabel :=
  [.canonicalizeL, .parseL, .sanitizeL, .checkMolL, .checkChargesL,
   .protonateL, .checkMolL, .embedL, .refineL, .assignStereoL,
   .writeMolFileL, .convertToPdbqtL, .subprocessL] ++
  (if verbose then [.logL] else []) ++
  [.checkVinaOutputL, .convertPdbqtToPdbL, .readPdbL, .assignBondOrdersL,
   .assignStereoL, .verifyL, .parseScoresL]

/-- The thirteen pipeline stages named by the spec's control-flow
description, in the claimed order. -/
inductive Stage where
  | canonicalizeS | parseS | sanitizeS | structuralCheckS | protonateS
  | embedS | refineS | assignStereoS | engineS | outputValidationS
  | reconstructionS | verificationS | scoreExtractionS
deriving DecidableEq, Repr

/-- Which spec stage each step belongs to.  `check_mol`/`check_charges`
form the structural check; serialization, the subprocess and its logging
form the engine-invocation stage (spec §4.3); pdbqt→pdb conversion,
pdb reading and bond-order assignment form reconstruction (spec §4.4). -/
def stageOf : StepLabel → Stage
  | .canonicalizeL => .canonicalizeS
  | .parseL => .parseS
  | .sanitizeL => .sanitizeS
  | .checkMolL => .structuralCheckS
  | .checkChargesL => .structuralCheckS
  | .protonateL => .protonateS
  | .embedL => .embedS
  | .refineL => .refineS
  | .assignStereoL => .assignStereoS
  | .writeMolFileL => .engineS
  | .convertToPdbqtL => .engineS
  | .subprocessL => .engineS
  | .logL => .engineS
  | .checkVinaOutputL => .outputValidationS
  | .convertPdbqtToPdbL => .reconstructionS
  | .readPdbL => .reconstructionS
  | .assignBondOrdersL => .reconstructionS
  | .verifyL => .verificationS
  | .parseScoresL => .scoreExtractionS

/-- The spec's claimed linear stage order. -/
def pipelineStages : List Stage :=
  [.canonicalizeS, .parseS, .sanitizeS, .structuralCheckS, .protonateS,
   .embedS, .refineS, .assignStereoS, .engineS, .outputValidationS,
   .reconstructionS, .verificationS, .scoreExtractionS]

/-- Remove duplicates keeping the FIRST occurrence of each element. -/
def dedupFirst {α : Type} [DecidableEq α] (l : List α) : List α :=
  l.foldl (fun acc a => if a ∈ acc then acc else acc ++ [a]) []

/-- The embedded geometries recorded in a trace (results of the
`embed_mol` calls). -/
def embedResults (tr : List Step) : List Mol :=
  tr.filterMap fun s =>
    match s with
    | .embed _ _ r => some r
    | _ => none

/-- A concrete environment in which every pipeline stage succeeds and the
engine reports a single pose with score −5. -/
def envW : ChemEnv where
  rdkit_canonicalize := fun s => some s
  smiles_to_mol := fun _ => .ok ⟨1, 0⟩
  rdkit_sanitize := fun m => some m
  mol_ok := fun _ => true
  charges_ok := fun _ => true
  protonate_mol := fun m => ⟨m.id + 10, m.numConformers⟩
  embed_mol := fun m _ => ⟨m.id, 1⟩
  ff_refine := fun m => some m
  assign_stereochemistry := fun m => m
  write_mol_to_mol_file := fun _ => "molfile"
  convert_mol_file_to_pdbqt := fun _ => .ok "pdbqtfile"
  vina_path := "vina"
  run_vina := fun _ _ _ _ _ => ⟨0, "vina ok", "outfile"⟩
  vina_output_ok := fun _ => true
  convert_pdbqt_to_pdb := fun _ _ => .ok "pdbfile"
  read_mol_from_pdb := fun _ => .ok ⟨2, 1⟩
  remove_hs := fun m => m
  rdkit_assign_bond_orders := fun subject _ => some subject
  docked_ligand_matches := fun _ _ => true
  parse_scores_from_output := fun _ => [-5]

/-- A concrete system with every artifact present. -/
def sysW : Sys where
  targets_dir := "/targets"
  file_exists := fun _ => true
  mkdtemp := "/tmp/t0"
  resolve := fun s => s

/-- A concrete target with a user-supplied working directory. -/
def tW : Target where
  name := "ABC"
  custom_working_dir := some "/wd"
  tmp_dir_handle := none

/-- Variant of `envW` with the engine stubbed to exit with code 1 and combined
output "stub stderr text". -/
def envStub : ChemEnv :=
  { envW with run_vina := fun _ _ _ _ _ => ⟨1, "stub stderr text", ""⟩ }

/-- Variant of `envW` with a charge check that accepts the sanitized molecule
(id 1) but rejects its protonated form (id 11). -/
def envC3 : ChemEnv :=
  { envW with charges_ok := fun m => decide (m.id < 10) }

/-- Variant of `envW` with two parsed scores against a one-conformer ligand (score
count mismatch). -/
def envMis : ChemEnv :=
  { envW with parse_scores_from_output := fun _ => [-5, -4] }

/-- Variant of `envW` with canonicalization failing on every input. -/
def envBad : ChemEnv :=
  { envW with rdkit_canonicalize := fun _ => none }

/-- A concrete system in which the search-box configuration file of
target "ABC" is missing. -/
def sysMiss : Sys where
  targets_dir := "/targets"
  file_exists := fun p => p != "/targets/ABC_conf.txt"
  mkdtemp := "/tmp/t0"
  resolve := fun s => s

/-- A concrete target constructed with the empty string as its working
directory. -/
def tE : Target where
  name := "ABC"
  custom_working_dir := some ""
  tmp_dir_handle := none

/-- A concrete target constructed without a working directory. -/
def tN : Target where
  name := "ABC"
  custom_working_dir := none
  tmp_dir_handle := none

/-- A second concrete system: same targets directory as `sysW` but a
different temporary-directory name and no files present. -/
def sys2W : Sys where
  targets_dir := "/targets"
  file_exists := fun _ => false
  mkdtemp := "/tmp/zzz"
  resolve := fun s => s ++ "/resolved"

/-- Decides whether `needle` occurs as a contiguous substring of `hay`. -/
def substringOf (needle hay : String) : Bool :=
  (List.range (hay.length + 1)).any fun i =>
    ((hay.toList.drop i).take needle.toList.length) == needle.toList

set_option maxHeartbeats 2000000 in
theorem dock_files_body_labels (env : ChemEnv) (sys : Sys)
    (f1 f2 f3 f4 f5 : String) (t : Target) (smiles : String)
    (num_cpus : Option Nat) (seed : Int) (verbose : Bool) :
    ∀ tr t' res, dock_files_body env sys f1 f2 f3 f4 f5 t smiles num_cpus seed verbose = (tr, t', res) →
      (tr.map Step.label <+: fullLabels verbose) ∧
      (∀ out, res = .ok out → tr.map Step.label = fullLabels verbose) := by
  intro tr t' res heq
  unfold dock_files_body Target._dock_pdbqt at heq
  dsimp only at heq
  repeat' split at heq
  all_goals cases heq
  all_goals constructor
  all_goals try (intro out hout; cases hout)
  all_goals cases verbose
  all_goals simp_all [Step.label, fullLabels]

set_option maxHeartbeats 2000000 in
theorem dock_files_body_det (env : ChemEnv) (sys1 sys2 : Sys)
    (f1 f2 f3 f4 f5 g1 g2 g3 g4 g5 : String) (t1 t2 : Target) (smiles : String)
    (num_cpus : Option Nat) (seed : Int) (v1 v2 : Bool)
    (hd : sys1.targets_dir = sys2.targets_dir) (hn : t1.name = t2.name) :
    (dock_files_body env sys1 f1 f2 f3 f4 f5 t1 smiles num_cpus seed v1).2.2 =
      (dock_files_body env sys2 g1 g2 g3 g4 g5 t2 smiles num_cpus seed v2).2.2 ∧
    embedResults (dock_files_body env sys1 f1 f2 f3 f4 f5 t1 smiles num_cpus seed v1).1 =
      embedResults (dock_files_body env sys2 g1 g2 g3 g4 g5 t2 smiles num_cpus seed v2).1 := by
  have hp : pdbqt_path sys1 t1.name = pdbqt_path sys2 t2.name := by
    simp [pdbqt_path, hd, hn]
  have hc : conf_path sys1 t1.name = conf_path sys2 t2.name := by
    simp [conf_path, hd, hn]
  unfold dock_files_body Target._dock_pdbqt
  rw [hp, hc]
  dsimp only
  repeat' split
  all_goals simp_all [embedResults]

set_option maxHeartbeats 2000000 in
theorem dock_files_body_embed_seed (env : ChemEnv) (sys : Sys)
    (f1 f2 f3 f4 f5 : String) (t : Target) (smiles : String)
    (num_cpus : Option Nat) (seed : Int) (verbose : Bool) :
    ∀ tr t' res, dock_files_body env sys f1 f2 f3 f4 f5 t smiles num_cpus seed verbose = (tr, t', res) →
      ∀ m sd r, Step.embed m sd r ∈ tr → sd = seed ∧ r = env.embed_mol m seed := by
  intro tr t' res heq
  unfold dock_files_body Target._dock_pdbqt at heq
  dsimp only at heq
  repeat' split at heq
  all_goals cases heq
  all_goals intro m sd r hmem
  all_goals simp_all [List.mem_cons]

set_option maxHeartbeats 2000000 in
theorem dock_files_body_subprocess_seed (env : ChemEnv) (sys : Sys)
    (f1 f2 f3 f4 f5 : String) (t : Target) (smiles : String)
    (num_cpus : Option Nat) (seed : Int) (verbose : Bool) :
    ∀ tr t' res, dock_files_body env sys f1 f2 f3 f4 f5 t smiles num_cpus seed verbose = (tr, t', res) →
      ∀ cmd, Step.subprocess cmd ∈ tr →
        ∃ pre post, cmd = pre ++ ["--seed", toString seed] ++ post := by
  intro tr t' res heq
  cases num_cpus with
  | none =>
    unfold dock_files_body Target._dock_pdbqt at heq
    dsimp only at heq
    repeat' split at heq
    all_goals cases heq
    all_goals intro cmd hmem
    all_goals simp_all [List.mem_cons]
    all_goals exact ⟨[env.vina_path, "--receptor", pdbqt_path sys t.name, "--config",
      conf_path sys t.name, "--ligand", f2, "--log", f3, "--out", f4], [], by simp⟩
  | some n =>
    unfold dock_files_body Target._dock_pdbqt at heq
    dsimp only at heq
    repeat' split at heq
    all_goals cases heq
    all_goals intro cmd hmem
    all_goals simp_all [List.mem_cons]
    all_goals exact ⟨[env.vina_path, "--receptor", pdbqt_path sys t.name, "--config",
      conf_path sys t.name, "--ligand", f2, "--log", f3, "--out", f4],
      ["--cpu", toString n], by simp⟩

set_option maxHeartbeats 2000000 in
theorem dock_files_body_charges (env : ChemEnv) (sys : Sys)
    (f1 f2 f3 f4 f5 : String) (t : Target) (smiles : String)
    (num_cpus : Option Nat) (seed : Int) (verbose : Bool) :
    ∀ tr t' res, dock_files_body env sys f1 f2 f3 f4 f5 t smiles num_cpus seed verbose = (tr, t', res) →
      (∀ x, Step.check_charges x ∈ tr →
        ∃ cs m0, canonicalize_smiles env smiles = .ok cs ∧
          env.smiles_to_mol cs = .ok m0 ∧ sanitize_mol env m0 = .ok x) ∧
      (∀ cs m0 m, canonicalize_smiles env smiles = .ok cs →
        env.smiles_to_mol cs = .ok m0 → sanitize_mol env m0 = .ok m →
        check_mol env m = .ok () → check_charges env m = .ok () →
        check_mol env (env.protonate_mol m) = .ok () →
        Step.check_mol (env.protonate_mol m) ∈ tr ∧
        Step.embed (env.protonate_mol m) seed (env.embed_mol (env.protonate_mol m) seed) ∈ tr) := by
  intro tr t' res heq
  unfold dock_files_body Target._dock_pdbqt at heq
  dsimp only at heq
  repeat' split at heq
  all_goals cases heq
  all_goals constructor
  all_goals intros
  all_goals simp_all [List.mem_cons]

set_option maxHeartbeats 2000000 in
theorem dock_files_body_success (env : ChemEnv) (sys : Sys)
    (f1 f2 f3 f4 f5 : String) (t : Target) (smiles : String)
    (num_cpus : Option Nat) (seed : Int) (verbose : Bool) :
    ∀ tr t' res, dock_files_body env sys f1 f2 f3 f4 f5 t smiles num_cpus seed verbose = (tr, t', res) →
      ∀ b lig scs, res = .ok (b, lig, scs) →
        scs.length = lig.numConformers ∧ scs.head? = some b := by
  intro tr t' res heq
  unfold dock_files_body Target._dock_pdbqt at heq
  dsimp only at heq
  repeat' split at heq
  all_goals cases heq
  all_goals intro b lig scs hout
  all_goals try (cases hout)
  all_goals simp_all

/-- The `working_dir` property never changes the target's name. -/
theorem working_dir_name (sys : Sys) (t : Target) :
    (Target.working_dir sys t).2.name = t.name := by
  unfold Target.working_dir
  rcases h : t.custom_working_dir with _ | s
  · simp only [truthyPath, h]
    rcases h2 : t.tmp_dir_handle with _ | d <;> simp [truthyPath, h, h2]
  · by_cases hs : s = ""
    · subst hs
      simp only [truthyPath, h]
      rcases h2 : t.tmp_dir_handle with _ | d <;> simp [truthyPath, h, h2]
    · simp [truthyPath, h, hs]

/-- Restatement of `dock_files_body_labels` at the level of `Target.dock`. -/
theorem dock_labels (env : ChemEnv) (sys : Sys) (t : Target) (smiles : String)
    (num_cpus : Option Nat) (seed : Int) (verbose : Bool) :
    ∀ tr t' res, Target.dock env sys t smiles num_cpus seed verbose = (tr, t', res) →
      (tr.map Step.label <+: fullLabels verbose) ∧
      (∀ out, res = .ok out → tr.map Step.label = fullLabels verbose) := by
  intro tr t' res heq
  unfold Target.dock at heq
  exact dock_files_body_labels env sys _ _ _ _ _ _ smiles num_cpus seed verbose tr t' res heq

/-- Restatement of `dock_files_body_embed_seed` at the level of `Target.dock`. -/
theorem dock_embed_seed (env : ChemEnv) (sys : Sys) (t : Target) (smiles : String)
    (num_cpus : Option Nat) (seed : Int) (verbose : Bool) :
    ∀ tr t' res, Target.dock env sys t smiles num_cpus seed verbose = (tr, t', res) →
      ∀ m sd r, Step.embed m sd r ∈ tr → sd = seed ∧ r = env.embed_mol m seed := by
  intro tr t' res heq
  unfold Target.dock at heq
  exact dock_files_body_embed_seed env sys _ _ _ _ _ _ smiles num_cpus seed verbose tr t' res heq

/-- Restatement of `dock_files_body_subprocess_seed` at the level of `Target.dock`. -/
theorem dock_subprocess_seed (env : ChemEnv) (sys : Sys) (t : Target) (smiles : String)
    (num_cpus : Option Nat) (seed : Int) (verbose : Bool) :
    ∀ tr t' res, Target.dock env sys t smiles num_cpus seed verbose = (tr, t', res) →
      ∀ cmd, Step.subprocess cmd ∈ tr →
        ∃ pre post, cmd = pre ++ ["--seed", toString seed] ++ post := by
  intro tr t' res heq
  unfold Target.dock at heq
  exact dock_files_body_subprocess_seed env sys _ _ _ _ _ _ smiles num_cpus seed verbose tr t' res heq

/-- Restatement of `dock_files_body_charges` at the level of `Target.dock`. -/
theorem dock_charges_localized (env : ChemEnv) (sys : Sys) (t : Target) (smiles : String)
    (num_cpus : Option Nat) (seed : Int) (verbose : Bool) :
    ∀ tr t' res, Target.dock env sys t smiles num_cpus seed verbose = (tr, t', res) →
      (∀ x, Step.check_charges x ∈ tr →
        ∃ cs m0, canonicalize_smiles env smiles = .ok cs ∧
          env.smiles_to_mol cs = .ok m0 ∧ sanitize_mol env m0 = .ok x) ∧
      (∀ cs m0 m, canonicalize_smiles env smiles = .ok cs →
        env.smiles_to_mol cs = .ok m0 → sanitize_mol env m0 = .ok m →
        check_mol env m = .ok () → check_charges env m = .ok () →
        check_mol env (env.protonate_mol m) = .ok () →
        Step.check_mol (env.protonate_mol m) ∈ tr ∧
        Step.embed (env.protonate_mol m) seed (env.embed_mol (env.protonate_mol m) seed) ∈ tr) := by
  intro tr t' res heq
  unfold Target.dock at heq
  exact dock_files_body_charges env sys _ _ _ _ _ _ smiles num_cpus seed verbose tr t' res heq

/-- Restatement of `dock_files_body_success` at the level of `Target.dock`. -/
theorem dock_success_shape (env : ChemEnv) (sys : Sys) (t : Target) (smiles : String)
    (num_cpus : Option Nat) (seed : Int) (verbose : Bool) :
    ∀ tr t' res, Target.dock env sys t smiles num_cpus seed verbose = (tr, t', res) →
      ∀ b lig scs, res = .ok (b, lig, scs) →
        scs.length = lig.numConformers ∧ scs.head? = some b := by
  intro tr t' res heq
  unfold Target.dock at heq
  exact dock_files_body_success env sys _ _ _ _ _ _ smiles num_cpus seed verbose tr t' res heq

/-- C7: every `dock` call performs a prefix of the one linear step
sequence (early termination only), a successful call performs exactly that
sequence, and the first occurrences of the spec's thirteen stages along
that sequence follow the claimed order canonicalize → parse → sanitize →
structural check → protonate → embed → refine → assign stereochemistry →
engine invocation → output validation → reconstruction → verification →
score extraction (the structural check and stereochemistry assignment
recur later, each on a later-state molecule). -/
theorem dock_pipeline_linear_order :
    (∀ env sys t smiles num_cpus seed verbose,
      ((Target.dock env sys t smiles num_cpus seed verbose).1.map Step.label
        <+: fullLabels verbose) ∧
      (∀ out, (Target.dock env sys t smiles num_cpus seed verbose).2.2 = .ok out →
        (Target.dock env sys t smiles num_cpus seed verbose).1.map Step.label
          = fullLabels verbose)) ∧
    (∀ verbose, dedupFirst ((fullLabels verbose).map stageOf) = pipelineStages) := by
  constructor
  · intro env sys t smiles num_cpus seed verbose
    exact dock_labels env sys t smiles num_cpus seed verbose _ _ _ rfl
  · intro verbose
    cases verbose <;> rfl

/-- Witness for `dock_pipeline_linear_order` at a fully successful
concrete run. -/
theorem dock_pipeline_linear_order_witness :
    (Target.dock envW sysW tW "CCO" none 42 false).1.map Step.label = fullLabels false :=
  (dock_pipeline_linear_order.1 envW sysW tW "CCO" none 42 false).2
    (-5, ⟨2, 1⟩, [-5]) rfl

/-- C4: `dock` is a deterministic function of (target name, targets
directory, SMILES, seed, cpu count) — two runs under the same external
library behavior (`ChemEnv`) but different working directories, different
temporary-directory state and different verbosity produce the same
embedded geometry and the same result (in particular the same best
score). -/
theorem dock_deterministic_same_inputs
    (env : ChemEnv) (sys1 sys2 : Sys) (t1 t2 : Target) (smiles : String)
    (num_cpus : Option Nat) (seed : Int) (v1 v2 : Bool)
    (hd : sys1.targets_dir = sys2.targets_dir) (hn : t1.name = t2.name) :
    embedResults (Target.dock env sys1 t1 smiles num_cpus seed v1).1 =
      embedResults (Target.dock env sys2 t2 smiles num_cpus seed v2).1 ∧
    (Target.dock env sys1 t1 smiles num_cpus seed v1).2.2 =
      (Target.dock env sys2 t2 smiles num_cpus seed v2).2.2 := by
  unfold Target.dock
  have hn' : ((((((Target.working_dir sys1 t1).2 |> Target.working_dir sys1).2
      |> Target.working_dir sys1).2 |> Target.working_dir sys1).2
      |> Target.working_dir sys1).2).name =
    ((((((Target.working_dir sys2 t2).2 |> Target.working_dir sys2).2
      |> Target.working_dir sys2).2 |> Target.working_dir sys2).2
      |> Target.working_dir sys2).2).name := by
    simp [working_dir_name, hn]
  exact ⟨(dock_files_body_det env sys1 sys2 _ _ _ _ _ _ _ _ _ _ _ _ smiles
      num_cpus seed v1 v2 hd hn').2,
    (dock_files_body_det env sys1 sys2 _ _ _ _ _ _ _ _ _ _ _ _ smiles
      num_cpus seed v1 v2 hd hn').1⟩

/-- Witness for `dock_deterministic_same_inputs`: a run in a user-supplied
working directory and a run with a lazily created temporary directory
under a differently-behaving filesystem agree. -/
theorem dock_deterministic_same_inputs_witness :
    embedResults (Target.dock envW sysW tW "CCO" none 42 false).1 =
      embedResults (Target.dock envW sys2W tN "CCO" none 42 true).1 ∧
    (Target.dock envW sysW tW "CCO" none 42 false).2.2 =
      (Target.dock envW sys2W tN "CCO" none 42 true).2.2 :=
  dock_deterministic_same_inputs envW sysW sys2W tW tN "CCO" none 42 false true rfl rfl

/-- C10: the single `seed` argument of `dock` is the seed of every
3D-embedding step and is passed (as `--seed`) in every engine command
line; its default is 974528263. -/
theorem dock_single_seed_both_stages
    (env : ChemEnv) (sys : Sys) (t : Target) (smiles : String)
    (num_cpus : Option Nat) (seed : Int) (verbose : Bool) :
    (∀ m sd r, Step.embed m sd r ∈ (Target.dock env sys t smiles num_cpus seed verbose).1 →
      sd = seed ∧ r = env.embed_mol m seed) ∧
    (∀ cmd, Step.subprocess cmd ∈ (Target.dock env sys t smiles num_cpus seed verbose).1 →
      ∃ pre post, cmd = pre ++ ["--seed", toString seed] ++ post) ∧
    default_seed = 974528263 :=
  ⟨dock_embed_seed env sys t smiles num_cpus seed verbose _ _ _ rfl,
    dock_subprocess_seed env sys t smiles num_cpus seed verbose _ _ _ rfl,
    rfl⟩

/-- Witness for `dock_single_seed_both_stages` at a concrete successful
run: its embedding step and its engine command line both carry seed 42. -/
theorem dock_single_seed_both_stages_witness :
    (42 = (42 : Int) ∧ (⟨11, 1⟩ : Mol) = envW.embed_mol ⟨11, 0⟩ 42) ∧
    (∃ pre post, ["vina", "--receptor", "/targets/ABC_target.pdbqt", "--config",
      "/targets/ABC_conf.txt", "--ligand", "/wd/ligand.pdbqt", "--log", "/wd/vina.log",
      "--out", "/wd/vina.out", "--seed", "42"] =
        pre ++ ["--seed", toString (42 : Int)] ++ post) :=
  ⟨(dock_single_seed_both_stages envW sysW tW "CCO" none 42 false).1 ⟨11, 0⟩ 42 ⟨11, 1⟩
      (by decide),
    (dock_single_seed_both_stages envW sysW tW "CCO" none 42 false).2.1
      ["vina", "--receptor", "/targets/ABC_target.pdbqt", "--config",
       "/targets/ABC_conf.txt", "--ligand", "/wd/ligand.pdbqt", "--log", "/wd/vina.log",
       "--out", "/wd/vina.out", "--seed", "42"] (by decide)⟩

/-- C5: when canonicalization fails, `dock` performs only the
canonicalization step, raises `InvalidSmilesError`, and spawns no
subprocess whatsoever. -/
theorem dock_invalid_smiles_no_subprocess
    (env : ChemEnv) (sys : Sys) (t : Target) (smiles : String)
    (num_cpus : Option Nat) (seed : Int) (verbose : Bool)
    (h : env.rdkit_canonicalize smiles = none) :
    (Target.dock env sys t smiles num_cpus seed verbose).1 = [Step.canonicalize smiles] ∧
    (Target.dock env sys t smiles num_cpus seed verbose).2.2 = .error .InvalidSmilesError ∧
    ((Target.dock env sys t smiles num_cpus seed verbose).1.all
      fun st => st.label != StepLabel.subprocessL) = true := by
  simp [Target.dock, dock_files_body, canonicalize_smiles, h, Step.label]

/-- Witness for `dock_invalid_smiles_no_subprocess` on a concrete
unparseable SMILES. -/
theorem dock_invalid_smiles_no_subprocess_witness :
    (Target.dock envBad sysW tW "not a smiles" none 42 false).1 =
      [Step.canonicalize "not a smiles"] ∧
    (Target.dock envBad sysW tW "not a smiles" none 42 false).2.2 =
      .error .InvalidSmilesError ∧
    ((Target.dock envBad sysW tW "not a smiles" none 42 false).1.all
      fun st => st.label != StepLabel.subprocessL) = true :=
  dock_invalid_smiles_no_subprocess envBad sysW tW "not a smiles" none 42 false rfl

/-- Repeated accesses of the `working_dir` property return the same
directory and leave the state unchanged after the first access. -/
theorem working_dir_stable (sys : Sys) (t : Target) :
    Target.working_dir sys (Target.working_dir sys t).2 =
      ((Target.working_dir sys t).1, (Target.working_dir sys t).2) := by
  unfold Target.working_dir
  rcases h : t.custom_working_dir with _ | s
  · simp only [truthyPath, h]
    rcases h2 : t.tmp_dir_handle with _ | d <;> simp [truthyPath, h, h2]
  · by_cases hs : s = ""
    · subst hs
      simp only [truthyPath, h]
      rcases h2 : t.tmp_dir_handle with _ | d <;> simp [truthyPath, h, h2]
    · simp [truthyPath, h, hs]

/-- C9 (counterexample): constructing a Target with the EMPTY STRING as
its working directory: the property falls back to the lazy temporary
directory (Python truthiness treats `''` as absent), so a temporary
directory is created and returned even though a working directory was
supplied. -/
theorem working_dir_empty_string_cex :
    tE.custom_working_dir = some "" ∧
    (Target.working_dir sysW tE).2.tmp_dir_handle = some "/tmp/t0" ∧
    (Target.working_dir sysW tE).1 = "/tmp/t0" ∧
    sysW.resolve "" ≠ "/tmp/t0" :=
  ⟨rfl, rfl, rfl, by decide⟩

/-- C9 (amended): a NON-EMPTY supplied working directory always resolves
to that path and leaves the target state (hence the temporary-directory
handle) untouched; with no (or an empty) supplied directory and no handle
yet, the first access creates the temporary directory and stores its
handle; and a repeated access returns exactly the same directory and
state. -/
theorem working_dir_lazy_stable (sys : Sys) (t : Target) :
    (truthyPath t.custom_working_dir = true →
      Target.working_dir sys t = (sys.resolve (t.custom_working_dir.getD ""), t)) ∧
    (truthyPath t.custom_working_dir = false → t.tmp_dir_handle = none →
      Target.working_dir sys t =
        (sys.resolve sys.mkdtemp, { t with tmp_dir_handle := some sys.mkdtemp })) ∧
    (Target.working_dir sys (Target.working_dir sys t).2 =
      ((Target.working_dir sys t).1, (Target.working_dir sys t).2)) := by
  refine ⟨?_, ?_, working_dir_stable sys t⟩
  · intro h
    unfold Target.working_dir
    simp [h]
  · intro h h2
    unfold Target.working_dir
    simp [h, h2]

/-- Witness for `working_dir_lazy_stable`: a target with a user-supplied
directory and one without. -/
theorem working_dir_lazy_stable_witness :
    Target.working_dir sysW tW = (sysW.resolve "/wd", tW) ∧
    Target.working_dir sysW tN =
      (sysW.resolve sysW.mkdtemp, { tN with tmp_dir_handle := some sysW.mkdtemp }) :=
  ⟨(working_dir_lazy_stable sysW tW).1 rfl,
   (working_dir_lazy_stable sysW tN).2.1 rfl rfl⟩

/-- C6 (counterexample): with the configuration artifact missing,
construction raises the BASE `DockstringError` (message
`'ABC' is not a supported target`), not a distinct
`UnsupportedTargetError` kind. -/
theorem target_init_base_error_cex :
    sysMiss.file_exists (conf_path sysMiss "ABC") = false ∧
    Target.init sysMiss "ABC" none =
      .error (.DockstringError "'ABC' is not a supported target") ∧
    DockError.DockstringError "'ABC' is not a supported target" ≠
      DockError.UnsupportedTargetError :=
  ⟨by decide, rfl, by decide⟩

/-- C6 (amended): construction succeeds exactly when all three artifact
files exist, otherwise it raises `DockstringError` with the
is-not-a-supported-target message, at construction time; `dock` itself
never consults file existence (changing the file-existence oracle does
not change any `dock` call). -/
theorem target_init_eager_exact (sys : Sys) (name : String) (wd : Option String) :
    (Target.init sys name wd = .ok ⟨name, wd, none⟩ ↔
      (sys.file_exists (pdb_path sys name) && sys.file_exists (pdbqt_path sys name) &&
        sys.file_exists (conf_path sys name)) = true) ∧
    (Target.init sys name wd =
        .error (.DockstringError ("'" ++ name ++ "' is not a supported target")) ↔
      ¬((sys.file_exists (pdb_path sys name) && sys.file_exists (pdbqt_path sys name) &&
        sys.file_exists (conf_path sys name)) = true)) ∧
    (∀ env t smiles num_cpus seed verbose fe,
      Target.dock env { sys with file_exists := fe } t smiles num_cpus seed verbose =
        Target.dock env sys t smiles num_cpus seed verbose) := by
  refine ⟨?_, ?_, ?_⟩
  · unfold Target.init
    by_cases h : (sys.file_exists (pdb_path sys name) && sys.file_exists (pdbqt_path sys name) &&
        sys.file_exists (conf_path sys name)) = true <;> simp [h]
  · unfold Target.init
    by_cases h : (sys.file_exists (pdb_path sys name) && sys.file_exists (pdbqt_path sys name) &&
        sys.file_exists (conf_path sys name)) = true <;> simp [h]
  · intro env t smiles num_cpus seed verbose fe
    rfl

/-- C1 (counterexample): with the engine stubbed to exit with code 1 and
combined output "stub stderr text", `dock` raises
`VinaError "Docking with Vina failed"` — a fixed message that does NOT
contain the captured output, which (with `verbose = False`) appears
nowhere (not even as a log step). -/
theorem dock_vina_error_payload_cex :
    (Target.dock envStub sysW tW "CCO" none 42 false).2.2 =
      .error (.VinaError "Docking with Vina failed") ∧
    substringOf "stub stderr text" "Docking with Vina failed" = false ∧
    ((Target.dock envStub sysW tW "CCO" none 42 false).1.all
      fun st => st.label != StepLabel.logL) = true :=
  ⟨rfl, by decide, by decide⟩

/-- C1 (amended): whenever ligand preparation succeeds and the engine
subprocess exits with a non-zero status, `dock` raises
`VinaError` with the fixed message "Docking with Vina failed" (the
captured combined stdout/stderr is not attached to the error; with
`verbose = False` it is not even logged), and no score or ligand is
returned. -/
theorem dock_vina_error_fixed_message
    (env : ChemEnv) (sys : Sys) (t : Target) (smiles : String)
    (num_cpus : Option Nat) (seed : Int) (verbose : Bool)
    (cs : String) (m0 m rm0 : Mol) (pq : String)
    (h1 : canonicalize_smiles env smiles = .ok cs)
    (h2 : env.smiles_to_mol cs = .ok m0)
    (h3 : sanitize_mol env m0 = .ok m)
    (h4 : check_mol env m = .ok ())
    (h5 : check_charges env m = .ok ())
    (h6 : check_mol env (env.protonate_mol m) = .ok ())
    (h7 : refine_mol_with_ff env (env.embed_mol (env.protonate_mol m) seed) = .ok rm0)
    (h8 : env.convert_mol_file_to_pdbqt
        (env.write_mol_to_mol_file (env.assign_stereochemistry rm0)) = .ok pq)
    (h9 : (env.run_vina (pdbqt_path sys t.name) (conf_path sys t.name)
        pq seed num_cpus).returncode ≠ 0) :
    (Target.dock env sys t smiles num_cpus seed verbose).2.2 =
      .error (.VinaError "Docking with Vina failed") ∧
    (verbose = false →
      ((Target.dock env sys t smiles num_cpus seed verbose).1.all
        fun st => st.label != StepLabel.logL) = true) := by
  constructor
  · simp [Target.dock, dock_files_body, Target._dock_pdbqt, working_dir_name,
      h1, h2, h3, h4, h5, h6, h7, h8, h9]
  · intro hv
    subst hv
    simp [Target.dock, dock_files_body, Target._dock_pdbqt, working_dir_name,
      h1, h2, h3, h4, h5, h6, h7, h8, h9, Step.label]

/-- Witness for `dock_vina_error_fixed_message` at the stubbed engine. -/
theorem dock_vina_error_fixed_message_witness :
    (Target.dock envStub sysW tW "CCO" none 42 false).2.2 =
      .error (.VinaError "Docking with Vina failed") ∧
    (false = false →
      ((Target.dock envStub sysW tW "CCO" none 42 false).1.all
        fun st => st.label != StepLabel.logL) = true) :=
  dock_vina_error_fixed_message envStub sysW tW "CCO" none 42 false
    "CCO" ⟨1, 0⟩ ⟨1, 0⟩ ⟨11, 1⟩ "pdbqtfile"
    rfl rfl rfl rfl rfl rfl rfl rfl (by decide)

/-- C2: a successful `dock` call returns exactly as many scores as the
reconstructed ligand has conformers, and when the pipeline reaches the
final consistency check with a mismatch, `dock` aborts with the fatal
`AssertionError` (never a downgraded or silently swallowed result). -/
theorem dock_score_count_assert
    (env : ChemEnv) (sys : Sys) (t : Target) (smiles : String)
    (num_cpus : Option Nat) (seed : Int) (verbose : Bool) :
    (∀ b lig scs, (Target.dock env sys t smiles num_cpus seed verbose).2.2 = .ok (b, lig, scs) →
      scs.length = lig.numConformers) ∧
    (∀ cs m0 m rm0 pq outc pdbc rawlig lig0,
      canonicalize_smiles env smiles = .ok cs →
      env.smiles_to_mol cs = .ok m0 →
      sanitize_mol env m0 = .ok m →
      check_mol env m = .ok () →
      check_charges env m = .ok () →
      check_mol env (env.protonate_mol m) = .ok () →
      refine_mol_with_ff env (env.embed_mol (env.protonate_mol m) seed) = .ok rm0 →
      env.convert_mol_file_to_pdbqt
        (env.write_mol_to_mol_file (env.assign_stereochemistry rm0)) = .ok pq →
      (env.run_vina (pdbqt_path sys t.name) (conf_path sys t.name)
        pq seed num_cpus).returncode = 0 →
      (env.run_vina (pdbqt_path sys t.name) (conf_path sys t.name)
        pq seed num_cpus).outfile = outc →
      check_vina_output env outc = .ok () →
      env.convert_pdbqt_to_pdb outc true = .ok pdbc →
      env.read_mol_from_pdb pdbc = .ok rawlig →
      assign_bond_orders env rawlig (env.remove_hs (env.assign_stereochemistry rm0)) = .ok lig0 →
      verify_docked_ligand env (env.remove_hs (env.assign_stereochemistry rm0))
        (env.assign_stereochemistry lig0) = .ok () →
      (env.parse_scores_from_output pdbc).length ≠
        (env.assign_stereochemistry lig0).numConformers →
      (Target.dock env sys t smiles num_cpus seed verbose).2.2 = .error .AssertionError) := by
  constructor
  · intro b lig scs h
    exact (dock_success_shape env sys t smiles num_cpus seed verbose _ _ _ rfl b lig scs h).1
  · intro cs m0 m rm0 pq outc pdbc rawlig lig0
      h1 h2 h3 h4 h5 h6 h7 h8 h9 h10 h11 h12 h13 h14 h15 h16
    simp [Target.dock, dock_files_body, Target._dock_pdbqt, working_dir_name,
      h1, h2, h3, h4, h5, h6, h7, h8, h9, h10, h11, h12, h13, h14, h15, h16]

/-- Witness for `dock_score_count_assert`: a successful run with one
score and one conformer, and a mismatching run that aborts with the
assertion. -/
theorem dock_score_count_assert_witness :
    ([(-5 : Score)].length = (Mol.mk 2 1).numConformers) ∧
    (Target.dock envMis sysW tW "CCO" none 42 false).2.2 = .error .AssertionError :=
  ⟨(dock_score_count_assert envW sysW tW "CCO" none 42 false).1 (-5) ⟨2, 1⟩ [-5] rfl,
   (dock_score_count_assert envMis sysW tW "CCO" none 42 false).2
     "CCO" ⟨1, 0⟩ ⟨1, 0⟩ ⟨11, 1⟩ "pdbqtfile" "outfile" "pdbfile" ⟨2, 1⟩ ⟨2, 1⟩
     rfl rfl rfl rfl rfl rfl rfl rfl rfl rfl rfl rfl rfl rfl rfl (by decide)⟩

/-- C8: a successful `dock` call returns the FIRST parsed score as the
best score, together with the reconstructed ligand and the complete score
sequence. -/
theorem dock_returns_first_score
    (env : ChemEnv) (sys : Sys) (t : Target) (smiles : String)
    (num_cpus : Option Nat) (seed : Int) (verbose : Bool) :
    (∀ b lig scs, (Target.dock env sys t smiles num_cpus seed verbose).2.2 = .ok (b, lig, scs) →
      scs.head? = some b) ∧
    (∀ cs m0 m rm0 pq outc pdbc rawlig lig0 s0 rest,
      canonicalize_smiles env smiles = .ok cs →
      env.smiles_to_mol cs = .ok m0 →
      sanitize_mol env m0 = .ok m →
      check_mol env m = .ok () →
      check_charges env m = .ok () →
      check_mol env (env.protonate_mol m) = .ok () →
      refine_mol_with_ff env (env.embed_mol (env.protonate_mol m) seed) = .ok rm0 →
      env.convert_mol_file_to_pdbqt
        (env.write_mol_to_mol_file (env.assign_stereochemistry rm0)) = .ok pq →
      (env.run_vina (pdbqt_path sys t.name) (conf_path sys t.name)
        pq seed num_cpus).returncode = 0 →
      (env.run_vina (pdbqt_path sys t.name) (conf_path sys t.name)
        pq seed num_cpus).outfile = outc →
      check_vina_output env outc = .ok () →
      env.convert_pdbqt_to_pdb outc true = .ok pdbc →
      env.read_mol_from_pdb pdbc = .ok rawlig →
      assign_bond_orders env rawlig (env.remove_hs (env.assign_stereochemistry rm0)) = .ok lig0 →
      verify_docked_ligand env (env.remove_hs (env.assign_stereochemistry rm0))
        (env.assign_stereochemistry lig0) = .ok () →
      env.parse_scores_from_output pdbc = s0 :: rest →
      (s0 :: rest).length = (env.assign_stereochemistry lig0).numConformers →
      (Target.dock env sys t smiles num_cpus seed verbose).2.2 =
        .ok (s0, env.assign_stereochemistry lig0, s0 :: rest)) := by
  constructor
  · intro b lig scs h
    exact (dock_success_shape env sys t smiles num_cpus seed verbose _ _ _ rfl b lig scs h).2
  · intro cs m0 m rm0 pq outc pdbc rawlig lig0 s0 rest
      h1 h2 h3 h4 h5 h6 h7 h8 h9 h10 h11 h12 h13 h14 h15 h16 h17
    simp [Target.dock, dock_files_body, Target._dock_pdbqt, working_dir_name,
      h1, h2, h3, h4, h5, h6, h7, h8, h9, h10, h11, h12, h13, h14, h15, h16, h17]

/-- Witness for `dock_returns_first_score` at a concrete successful
run. -/
theorem dock_returns_first_score_witness :
    ([(-5 : Score)].head? = some (-5)) ∧
    (Target.dock envW sysW tW "CCO" none 42 false).2.2 =
      .ok (-5, envW.assign_stereochemistry ⟨2, 1⟩, [-5]) :=
  ⟨(dock_returns_first_score envW sysW tW "CCO" none 42 false).1 (-5) ⟨2, 1⟩ [-5] rfl,
   (dock_returns_first_score envW sysW tW "CCO" none 42 false).2
     "CCO" ⟨1, 0⟩ ⟨1, 0⟩ ⟨11, 1⟩ "pdbqtfile" "outfile" "pdbfile" ⟨2, 1⟩ ⟨2, 1⟩ (-5) []
     rfl rfl rfl rfl rfl rfl rfl rfl rfl rfl rfl rfl rfl rfl rfl rfl (by decide)⟩

/-- C3 (counterexample): under `envC3` the protonated molecule violates
the net-formal-charge bound, yet `dock` succeeds: no `check_charges` step
is ever run on the protonated molecule, and embedding proceeds — so the
FULL structural check (including the charge bound) is NOT re-run after
protonation. -/
theorem dock_charge_recheck_cex :
    envC3.charges_ok (envC3.protonate_mol ⟨1, 0⟩) = false ∧
    (Target.dock envC3 sysW tW "CCO" none 42 false).2.2 = .ok (-5, ⟨2, 1⟩, [-5]) ∧
    ((Target.dock envC3 sysW tW "CCO" none 42 false).1.all
      fun st => st != Step.check_charges (envC3.protonate_mol ⟨1, 0⟩)) = true ∧
    Step.embed (envC3.protonate_mol ⟨1, 0⟩) 42 ⟨11, 1⟩ ∈
      (Target.dock envC3 sysW tW "CCO" none 42 false).1 :=
  ⟨rfl, rfl, by decide, by decide⟩

/-- C3 (amended): the net-formal-charge check runs only on the
pre-protonation (sanitized) molecule — any `check_charges` step's
argument is the sanitization output — while after protonation only the
size/element/fragment check (`check_mol`) is re-run on the protonated
molecule before embedding proceeds. -/
theorem dock_recheck_post_protonation
    (env : ChemEnv) (sys : Sys) (t : Target) (smiles : String)
    (num_cpus : Option Nat) (seed : Int) (verbose : Bool) :
    (∀ x, Step.check_charges x ∈ (Target.dock env sys t smiles num_cpus seed verbose).1 →
      ∃ cs m0, canonicalize_smiles env smiles = .ok cs ∧
        env.smiles_to_mol cs = .ok m0 ∧ sanitize_mol env m0 = .ok x) ∧
    (∀ cs m0 m, canonicalize_smiles env smiles = .ok cs →
      env.smiles_to_mol cs = .ok m0 → sanitize_mol env m0 = .ok m →
      check_mol env m = .ok () → check_charges env m = .ok () →
      check_mol env (env.protonate_mol m) = .ok () →
      Step.check_mol (env.protonate_mol m) ∈
        (Target.dock env sys t smiles num_cpus seed verbose).1 ∧
      Step.embed (env.protonate_mol m) seed (env.embed_mol (env.protonate_mol m) seed) ∈
        (Target.dock env sys t smiles num_cpus seed verbose).1) :=
  dock_charges_localized env sys t smiles num_cpus seed verbose _ _ _ rfl

/-- Witness for `dock_recheck_post_protonation` at a concrete run: its
only charge check is on the sanitized molecule, and the protonated
molecule is re-checked with `check_mol` and then embedded. -/
theorem dock_recheck_post_protonation_witness :
    (∃ cs m0, canonicalize_smiles envW "CCO" = .ok cs ∧
      envW.smiles_to_mol cs = .ok m0 ∧ sanitize_mol envW m0 = .ok ⟨1, 0⟩) ∧
    Step.check_mol (envW.protonate_mol ⟨1, 0⟩) ∈
      (Target.dock envW sysW tW "CCO" none 42 false).1 ∧
    Step.embed (envW.protonate_mol ⟨1, 0⟩) 42 (envW.embed_mol (envW.protonate_mol ⟨1, 0⟩) 42) ∈
      (Target.dock envW sysW tW "CCO" none 42 false).1 := by
  refine ⟨?_, (dock_recheck_post_protonation envW sysW tW "CCO" none 42 false).2
    "CCO" ⟨1, 0⟩ ⟨1, 0⟩ rfl rfl rfl rfl rfl rfl⟩
  exact (dock_recheck_post_protonation envW sysW tW "CCO" none 42 false).1 ⟨1, 0⟩ (by decide)
